import Mathlib

/-!
Shallow embedding of the geopyspark protobuf codec layer
(src/geopyspark/geotrellis/protobufcodecs.py) together with the record
types it operates on (src/geopyspark/geotrellis/__init__.py).

Modelling conventions:
* Python dict records such as the Tile dict become Lean structures; a
  missing optional key is modelled as `none` (the decoders never produce
  a key bound to Python None, so the conflation is harmless here).
* Numpy arrays become `NpArray`: an explicit shape plus the flat,
  row-major value list.  Cell values are modelled as `Int`; the float32
  and float64 containers carry their values unchanged through the codec,
  so integers stand in for the exact payload values.
* The generated protobuf message classes (tileMessages_pb2 and friends)
  are not part of the Python sources; the message records are modelled
  from the wire format described in the specification (rows, cols, cell
  type discriminant, no-data flag and value, one packed container per
  cell representation).  Protobuf serialization followed by parsing is
  modelled as the identity on message records, so the byte level
  SerializeToString / FromString pair is elided and every encoder is
  composed with the matching decoder directly on messages.
* A Python exception escaping a codec function is modelled by `Option`:
  the function returns `none` where the Python code raises.
* `to_pb_multibandtile` mutates the record it is given (it reassigns
  the data key when the array is 2-dimensional); it therefore returns
  the post-call state of its input record as a second component, and so
  does `tuple_encoder`, which calls it.
-/

namespace GeoPySpark

/-- The eight cell types, in the order of the `_mapped_data_types`
table (discriminants 0..7). -/
inductive DataType where
  | bit
  | byte
  | ubyte
  | short
  | ushort
  | int
  | float
  | double
deriving DecidableEq, Repr

/-- `_mapped_data_types`: discriminant to cell type; a lookup outside
0..7 raises KeyError in Python, modelled as `none`. -/
def mapped_data_types (n : Nat) : Option DataType :=
  match n with
  | 0 => some .bit
  | 1 => some .byte
  | 2 => some .ubyte
  | 3 => some .short
  | 4 => some .ushort
  | 5 => some .int
  | 6 => some .float
  | 7 => some .double
  | _ => none

/-- The `ProtoCellType` enum value written by the encoder for each cell
type (BIT = 0 .. DOUBLE = 7). -/
def dataTypeCode : DataType → Nat
  | .bit => 0
  | .byte => 1
  | .ubyte => 2
  | .short => 3
  | .ushort => 4
  | .int => 5
  | .float => 6
  | .double => 7

/-- Conversion to numpy int8: wrap into [-128, 127]. -/
def npInt8 (v : Int) : Int := (v + 128) % 256 - 128

/-- Conversion to numpy uint8: wrap into [0, 255]. -/
def npUInt8 (v : Int) : Int := v % 256

/-- Conversion to numpy int16: wrap into [-32768, 32767]. -/
def npInt16 (v : Int) : Int := (v + 32768) % 65536 - 32768

/-- Conversion to numpy uint16: wrap into [0, 65535]. -/
def npUInt16 (v : Int) : Int := v % 65536

/-- Conversion to numpy int32: wrap into the signed 32-bit range. -/
def npInt32 (v : Int) : Int := (v + 2147483648) % 4294967296 - 2147483648

/-- A numpy ndarray: explicit shape and the flat row-major values. -/
structure NpArray where
  shape : List Nat
  values : List Int
deriving DecidableEq, Repr

/-- `np.xxx(list).reshape(rows, cols)`: fails (ValueError) unless the
number of values matches `rows * cols`. -/
def npReshape2 (vals : List Int) (rows cols : Nat) : Option NpArray :=
  if vals.length = rows * cols then some ⟨[rows, cols], vals⟩ else none

/-- `np.array([a])` and `np.expand_dims(a, 0)`: prepend an axis of
length 1. -/
def npExpandDims (a : NpArray) : NpArray := ⟨1 :: a.shape, a.values⟩

/-- The `ProtoCellType` message: discriminant, no-data flag, no-data
value (proto defaults: 0 / false / 0). -/
structure ProtoCellType where
  dataType : Nat
  hasNoData : Bool
  nd : Int
deriving DecidableEq, Repr

/-- The `ProtoTile` message: dimensions, cell type, and one packed cell
container per wire representation (unused containers stay empty). -/
structure ProtoTile where
  cols : Nat
  rows : Nat
  cellType : ProtoCellType
  uint32Cells : List Int
  sint32Cells : List Int
  floatCells : List Int
  doubleCells : List Int
deriving DecidableEq, Repr

/-- The `ProtoMultibandTile` message: a repeated field of tiles. -/
structure ProtoMultibandTile where
  tiles : List ProtoTile
deriving DecidableEq, Repr

/-- `from_pb_tile`: select the container by cell type, convert to the
logical numpy dtype, and reshape to rows × cols.  All call sites pass
the data type explicitly, so the defaulting branch is not modelled. -/
def from_pb_tile (tile : ProtoTile) (data_type : DataType) : Option NpArray :=
  match data_type with
  | .bit => npReshape2 (tile.uint32Cells.map npInt8) tile.rows tile.cols
  | .byte => npReshape2 (tile.sint32Cells.map npInt8) tile.rows tile.cols
  | .ubyte => npReshape2 (tile.uint32Cells.map npUInt8) tile.rows tile.cols
  | .short => npReshape2 (tile.sint32Cells.map npInt16) tile.rows tile.cols
  | .ushort => npReshape2 (tile.uint32Cells.map npUInt16) tile.rows tile.cols
  | .int => npReshape2 (tile.sint32Cells.map npInt32) tile.rows tile.cols
  | .float => npReshape2 tile.floatCells tile.rows tile.cols
  | .double => npReshape2 tile.doubleCells tile.rows tile.cols

/-- The Tile record ({data, data_type, no_data_value}); `none` for
`no_data_value` models the dict lacking the key. -/
structure TileDict where
  data : NpArray
  data_type : DataType
  no_data_value : Option Int
deriving DecidableEq, Repr

/-- `tile_decoder` (protobuf parsing elided): look up the data type,
decode the single band, wrap it in a leading axis with `np.array([..])`,
and attach the no-data sentinel only when the flag is set. -/
def tile_decoder (tile : ProtoTile) : Option TileDict :=
  match mapped_data_types tile.cellType.dataType with
  | none => none
  | some data_type =>
    match from_pb_tile tile data_type with
    | none => none
    | some a =>
      let arr := npExpandDims a
      if tile.cellType.hasNoData then
        some { data := arr, data_type := data_type,
               no_data_value := some tile.cellType.nd }
      else
        some { data := arr, data_type := data_type, no_data_value := none }

/-- Python truthiness of an optional numeric value, as used by
`obj.get(key)` in a boolean position: false when the key is absent or
when the value is zero. -/
def pyTruthy : Option Int → Bool
  | some v => v != 0
  | none => false

/-- The body of `to_pb_tile` once rows and cols have been read off the
array shape: populate the cell type (no-data flag by truthiness of the
optional value) and write the flattened values into the container that
matches the data type. -/
def mkProtoTile (rows cols : Nat) (obj : TileDict) : ProtoTile :=
  let hasNd := pyTruthy obj.no_data_value
  let nd : Int := if hasNd then obj.no_data_value.getD 0 else 0
  let ct : ProtoCellType := ⟨dataTypeCode obj.data_type, hasNd, nd⟩
  let cells := obj.data.values
  match obj.data_type with
  | .bit => ⟨cols, rows, ct, cells, [], [], []⟩
  | .byte => ⟨cols, rows, ct, [], cells, [], []⟩
  | .ubyte => ⟨cols, rows, ct, cells, [], [], []⟩
  | .short => ⟨cols, rows, ct, [], cells, [], []⟩
  | .ushort => ⟨cols, rows, ct, cells, [], [], []⟩
  | .int => ⟨cols, rows, ct, [], cells, [], []⟩
  | .float => ⟨cols, rows, ct, [], [], cells, []⟩
  | .double => ⟨cols, rows, ct, [], [], [], cells⟩

/-- `to_pb_tile`: read (rows, cols) from a 2-d shape, or (_, rows, cols)
from a 3-d shape; any other rank fails the tuple unpacking (modelled for
every rank other than 2 or 3).  The whole flattened array is written,
whatever the leading axis length. -/
def to_pb_tile (obj : TileDict) : Option ProtoTile :=
  match obj.data.shape with
  | [rows, cols] => some (mkProtoTile rows cols obj)
  | [_, rows, cols] => some (mkProtoTile rows cols obj)
  | _ => none

/-- The cell container of a `ProtoTile` that `from_pb_tile` reads for a
given data type (and that `mkProtoTile` writes). -/
def containerOf (tile : ProtoTile) (dt : DataType) : List Int :=
  match dt with
  | .bit | .ubyte | .ushort => tile.uint32Cells
  | .byte | .short | .int => tile.sint32Cells
  | .float => tile.floatCells
  | .double => tile.doubleCells

/-- The numpy dtype conversion applied by `from_pb_tile` for a given
data type (identity for the float containers). -/
def narrowCell (dt : DataType) (v : Int) : Int :=
  match dt with
  | .bit => npInt8 v
  | .byte => npInt8 v
  | .ubyte => npUInt8 v
  | .short => npInt16 v
  | .ushort => npUInt16 v
  | .int => npInt32 v
  | .float => v
  | .double => v

/-- A cell value is within the representable range of its logical cell
type (input beyond the range is undefined input per the spec). -/
def cellInRange (dt : DataType) (v : Int) : Bool :=
  match dt with
  | .bit => decide (0 ≤ v ∧ v ≤ 1)
  | .byte => decide (-128 ≤ v ∧ v ≤ 127)
  | .ubyte => decide (0 ≤ v ∧ v ≤ 255)
  | .short => decide (-32768 ≤ v ∧ v ≤ 32767)
  | .ushort => decide (0 ≤ v ∧ v ≤ 65535)
  | .int => decide (-2147483648 ≤ v ∧ v ≤ 2147483647)
  | .float => true
  | .double => true

def mapOpt (f : α → Option β) : List α → Option (List β)
  | [] => some []
  | a :: as =>
    match f a, mapOpt f as with
    | some b, some bs => some (b :: bs)
    | _, _ => none

/-- `np.array(list-of-arrays)`: stacking same-shaped arrays prepends an
axis of the list length; differing shapes do not produce a proper
numeric array and are modelled as failure.  `np.array([])` gives an
empty 1-d array. -/
def npStack : List NpArray → Option NpArray
  | [] => some ⟨[0], []⟩
  | a :: rest =>
    if ∀ b ∈ rest, b.shape = a.shape then
      some ⟨(a :: rest).length :: a.shape, ((a :: rest).map NpArray.values).flatten⟩
    else none

/-- The body of `from_pb_multibandtile` over the tiles list: the data
type and no-data information are read from band 0 alone (an empty tiles
list raises IndexError); every band is decoded with the band-0 data
type and the bands are stacked. -/
def decode_bands : List ProtoTile → Option TileDict
  | [] => none
  | t0 :: rest =>
    match mapped_data_types t0.cellType.dataType with
    | none => none
    | some data_type =>
      match mapOpt (fun t => from_pb_tile t data_type) (t0 :: rest) with
      | none => none
      | some arrs =>
        match npStack arrs with
        | none => none
        | some bands =>
          if t0.cellType.hasNoData then
            some { data := bands, data_type := data_type,
                   no_data_value := some t0.cellType.nd }
          else
            some { data := bands, data_type := data_type, no_data_value := none }

/-- `from_pb_multibandtile`. -/
def from_pb_multibandtile (multibandtile : ProtoMultibandTile) : Option TileDict :=
  decode_bands multibandtile.tiles

/-- `multibandtile_decoder` (protobuf parsing elided). -/
def multibandtile_decoder (multibandtile : ProtoMultibandTile) : Option TileDict :=
  from_pb_multibandtile multibandtile

/-- The slice `obj[data][index, :, :]` used by `create_dict` in
`to_pb_multibandtile`: drop the leading axis and take the chunk of the
flat values that belongs to band `index`. -/
def bandSlice (a : NpArray) (i : Nat) : NpArray :=
  match a.shape with
  | [] => a
  | _ :: rest => ⟨rest, (a.values.drop (i * rest.prod)).take rest.prod⟩

/-- `create_dict` inside `to_pb_multibandtile`: the per-band record,
carrying the shared data type and no-data value of the input record. -/
def create_dict (obj : TileDict) (i : Nat) : TileDict :=
  { data := bandSlice obj.data i, data_type := obj.data_type,
    no_data_value := obj.no_data_value }

/-- `to_pb_multibandtile`: first `obj[data]` is reassigned to its
expansion when the array is 2-dimensional (an in-place mutation of the
input record, whose post-call state is the second component); then the
band count is the leading axis length (IndexError on a 0-d array), and
each band is encoded from a `create_dict` record.  `create_dict` reads
`obj[no_data_value]` with subscription, so a record lacking the key
raises KeyError as soon as one band exists. -/
def encode_bands (obj2 : TileDict) : List Nat → Option ProtoMultibandTile × TileDict
  | [] => (none, obj2)
  | n :: _ =>
    if n ≠ 0 ∧ obj2.no_data_value = none then (none, obj2)
    else
      match mapOpt (fun i => to_pb_tile (create_dict obj2 i)) (List.range n) with
      | none => (none, obj2)
      | some tiles => (some ⟨tiles⟩, obj2)

/-- `to_pb_multibandtile` proper: normalise a 2-d array in place, then
run `encode_bands` on the (possibly updated) shape. -/
def to_pb_multibandtile (obj : TileDict) : Option ProtoMultibandTile × TileDict :=
  let obj2 :=
    if obj.data.shape.length = 2 then { obj with data := npExpandDims obj.data } else obj
  encode_bands obj2 obj2.data.shape

/-- `multibandtile_encoder` (protobuf serialization elided); also
returns the post-call state of the input record. -/
def multibandtile_encoder (obj : TileDict) : Option ProtoMultibandTile × TileDict :=
  to_pb_multibandtile obj

/-- The Extent record; the four float64 coordinates pass through the
codec unchanged and are modelled as integers. -/
structure Extent where
  xmin : Int
  ymin : Int
  xmax : Int
  ymax : Int
deriving DecidableEq, Repr

/-- The `ProtoExtent` message. -/
structure ProtoExtent where
  xmin : Int
  ymin : Int
  xmax : Int
  ymax : Int
deriving DecidableEq, Repr

/-- The `ProtoCRS` message; proto3 defaults are 0 and the empty
string. -/
structure ProtoCRS where
  epsg : Int
  proj4 : String
deriving DecidableEq, Repr

/-- The `ProtoProjectedExtent` message. -/
structure ProtoProjectedExtent where
  extent : ProtoExtent
  crs : ProtoCRS
deriving DecidableEq, Repr

/-- The `ProtoTemporalProjectedExtent` message. -/
structure ProtoTemporalProjectedExtent where
  extent : ProtoExtent
  crs : ProtoCRS
  instant : Int
deriving DecidableEq, Repr

/-- The `ProtoSpatialKey` message. -/
structure ProtoSpatialKey where
  col : Int
  row : Int
deriving DecidableEq, Repr

/-- The `ProtoSpaceTimeKey` message. -/
structure ProtoSpaceTimeKey where
  col : Int
  row : Int
  instant : Int
deriving DecidableEq, Repr

/-- The `ProjectedExtent` namedtuple (extent, epsg, proj4); the two
optional CRS fields default to None. -/
structure ProjectedExtent where
  extent : Extent
  epsg : Option Int
  proj4 : Option String
deriving DecidableEq, Repr

/-- The `TemporalProjectedExtent` namedtuple (extent, instant, epsg,
proj4). -/
structure TemporalProjectedExtent where
  extent : Extent
  instant : Int
  epsg : Option Int
  proj4 : Option String
deriving DecidableEq, Repr

/-- The `SpatialKey` namedtuple. -/
structure SpatialKey where
  col : Int
  row : Int
deriving DecidableEq, Repr

/-- The `SpaceTimeKey` namedtuple. -/
structure SpaceTimeKey where
  col : Int
  row : Int
  instant : Int
deriving DecidableEq, Repr

/-- `from_pb_extent`. -/
def from_pb_extent (pb_extent : ProtoExtent) : Extent :=
  ⟨pb_extent.xmin, pb_extent.ymin, pb_extent.xmax, pb_extent.ymax⟩

/-- `to_pb_extent`. -/
def to_pb_extent (obj : Extent) : ProtoExtent :=
  ⟨obj.xmin, obj.ymin, obj.xmax, obj.ymax⟩

/-- `extent_decoder` (protobuf parsing elided). -/
def extent_decoder (pb_extent : ProtoExtent) : Extent :=
  from_pb_extent pb_extent

/-- `extent_encoder` (protobuf serialization elided). -/
def extent_encoder (obj : Extent) : ProtoExtent :=
  to_pb_extent obj

/-- `from_pb_projected_extent`: a nonzero epsg field wins, otherwise the
proj4 field is authoritative (the Python comparison `is not 0` behaves
as a value comparison for small interned integers). -/
def from_pb_projected_extent (pb : ProtoProjectedExtent) : ProjectedExtent :=
  if pb.crs.epsg ≠ 0 then
    { extent := from_pb_extent pb.extent, epsg := some pb.crs.epsg, proj4 := none }
  else
    { extent := from_pb_extent pb.extent, epsg := none, proj4 := some pb.crs.proj4 }

/-- `projected_extent_decoder` (protobuf parsing elided). -/
def projected_extent_decoder (pb : ProtoProjectedExtent) : ProjectedExtent :=
  from_pb_projected_extent pb

/-- `from_pb_temporal_projected_extent`: same CRS dispatch, plus the
instant. -/
def from_pb_temporal_projected_extent (pb : ProtoTemporalProjectedExtent) :
    TemporalProjectedExtent :=
  if pb.crs.epsg ≠ 0 then
    { extent := from_pb_extent pb.extent, instant := pb.instant,
      epsg := some pb.crs.epsg, proj4 := none }
  else
    { extent := from_pb_extent pb.extent, instant := pb.instant,
      epsg := none, proj4 := some pb.crs.proj4 }

/-- `temporal_projected_extent_decoder` (protobuf parsing elided). -/
def temporal_projected_extent_decoder (pb : ProtoTemporalProjectedExtent) :
    TemporalProjectedExtent :=
  from_pb_temporal_projected_extent pb

/-- `to_pb_projected_extent`: a truthy epsg attribute is written to the
epsg field; otherwise the proj4 attribute is written, and a record with
neither raises (assigning None to a string field is a TypeError). -/
def to_pb_projected_extent (obj : ProjectedExtent) : Option ProtoProjectedExtent :=
  if pyTruthy obj.epsg then
    some { extent := to_pb_extent obj.extent,
           crs := { epsg := obj.epsg.getD 0, proj4 := "" } }
  else
    match obj.proj4 with
    | some s => some { extent := to_pb_extent obj.extent, crs := { epsg := 0, proj4 := s } }
    | none => none

/-- `projected_extent_encoder` (protobuf serialization elided). -/
def projected_extent_encoder (obj : ProjectedExtent) : Option ProtoProjectedExtent :=
  to_pb_projected_extent obj

/-- `to_pb_temporal_projected_extent`. -/
def to_pb_temporal_projected_extent (obj : TemporalProjectedExtent) :
    Option ProtoTemporalProjectedExtent :=
  if pyTruthy obj.epsg then
    some { extent := to_pb_extent obj.extent,
           crs := { epsg := obj.epsg.getD 0, proj4 := "" }, instant := obj.instant }
  else
    match obj.proj4 with
    | some s =>
      some { extent := to_pb_extent obj.extent, crs := { epsg := 0, proj4 := s },
             instant := obj.instant }
    | none => none

/-- `temporal_projected_extent_encoder` (protobuf serialization
elided). -/
def temporal_projected_extent_encoder (obj : TemporalProjectedExtent) :
    Option ProtoTemporalProjectedExtent :=
  to_pb_temporal_projected_extent obj

/-- `from_pb_spatial_key`. -/
def from_pb_spatial_key (pb : ProtoSpatialKey) : SpatialKey :=
  ⟨pb.col, pb.row⟩

/-- `spatial_key_decoder` (protobuf parsing elided). -/
def spatial_key_decoder (pb : ProtoSpatialKey) : SpatialKey :=
  from_pb_spatial_key pb

/-- `from_pb_space_time_key`. -/
def from_pb_space_time_key (pb : ProtoSpaceTimeKey) : SpaceTimeKey :=
  ⟨pb.col, pb.row, pb.instant⟩

/-- `space_time_key_decoder` (protobuf parsing elided). -/
def space_time_key_decoder (pb : ProtoSpaceTimeKey) : SpaceTimeKey :=
  from_pb_space_time_key pb

/-- `to_pb_spatial_key`. -/
def to_pb_spatial_key (obj : SpatialKey) : ProtoSpatialKey :=
  ⟨obj.col, obj.row⟩

/-- `spatial_key_encoder` (protobuf serialization elided). -/
def spatial_key_encoder (obj : SpatialKey) : ProtoSpatialKey :=
  to_pb_spatial_key obj

/-- `to_pb_space_time_key`. -/
def to_pb_space_time_key (obj : SpaceTimeKey) : ProtoSpaceTimeKey :=
  ⟨obj.col, obj.row, obj.instant⟩

/-- `space_time_key_encoder` (protobuf serialization elided). -/
def space_time_key_encoder (obj : SpaceTimeKey) : ProtoSpaceTimeKey :=
  to_pb_space_time_key obj

/-- The key slot of a wire tuple: one of the four key or geometry
variants. -/
inductive TupleKey where
  | projectedExtent (k : ProjectedExtent)
  | temporalProjectedExtent (k : TemporalProjectedExtent)
  | spatialKey (k : SpatialKey)
  | spaceTimeKey (k : SpaceTimeKey)
deriving DecidableEq, Repr

/-- The `ProtoTuple` message: the four key sub-messages (each present
with proto3 defaults) and the multiband tile value. -/
structure ProtoTuple where
  projectedExtent : ProtoProjectedExtent
  temporalProjectedExtent : ProtoTemporalProjectedExtent
  spatialKey : ProtoSpatialKey
  spaceTimeKey : ProtoSpaceTimeKey
  tiles : ProtoMultibandTile
deriving DecidableEq, Repr

/-- An all-default `ProtoTuple`, as freshly constructed by
`tupleMessages_pb2.ProtoTuple()`. -/
def emptyProtoTuple : ProtoTuple :=
  { projectedExtent := { extent := ⟨0, 0, 0, 0⟩, crs := ⟨0, ""⟩ },
    temporalProjectedExtent := { extent := ⟨0, 0, 0, 0⟩, crs := ⟨0, ""⟩, instant := 0 },
    spatialKey := ⟨0, 0⟩,
    spaceTimeKey := ⟨0, 0, 0⟩,
    tiles := ⟨[]⟩ }

/-- `tuple_decoder` (protobuf parsing elided): the value is always
decoded as a multiband tile, and the key slot named by `key_decoder` is
decoded with the matching sub-decoder (any unrecognised name falls into
the SpaceTimeKey branch). -/
def tuple_decoder (tup : ProtoTuple) (key_decoder : String) :
    Option (TupleKey × TileDict) :=
  match from_pb_multibandtile tup.tiles with
  | none => none
  | some multiband =>
    if key_decoder = "ProjectedExtent" then
      some (.projectedExtent (from_pb_projected_extent tup.projectedExtent), multiband)
    else if key_decoder = "TemporalProjectedExtent" then
      some (.temporalProjectedExtent
        (from_pb_temporal_projected_extent tup.temporalProjectedExtent), multiband)
    else if key_decoder = "SpatialKey" then
      some (.spatialKey (from_pb_spatial_key tup.spatialKey), multiband)
    else
      some (.spaceTimeKey (from_pb_space_time_key tup.spaceTimeKey), multiband)

/-- `tuple_encoder` (protobuf serialization elided): the value is first
encoded as a multiband tile (possibly mutating the value record, whose
post-call state is the second component); then the key slot selected by
`key_encoder` is populated via CopyFrom.  A key of the wrong Python
type raises AttributeError in the selected sub-encoder (modelled as
`none`), and the SpaceTimeKey branch assigns the sub-message directly
to the composite field `spaceTimeKey`, which the protobuf runtime
always rejects with AttributeError: that branch never succeeds. -/
def tuple_encoder (obj : TupleKey × TileDict) (key_encoder : String) :
    Option ProtoTuple × TileDict :=
  match to_pb_multibandtile obj.2 with
  | (none, obj2) => (none, obj2)
  | (some mb, obj2) =>
    if key_encoder = "ProjectedExtent" then
      match obj.1 with
      | .projectedExtent k =>
        match to_pb_projected_extent k with
        | some pex => (some { emptyProtoTuple with projectedExtent := pex, tiles := mb }, obj2)
        | none => (none, obj2)
      | _ => (none, obj2)
    else if key_encoder = "TemporalProjectedExtent" then
      match obj.1 with
      | .temporalProjectedExtent k =>
        match to_pb_temporal_projected_extent k with
        | some tpex =>
          (some { emptyProtoTuple with temporalProjectedExtent := tpex, tiles := mb }, obj2)
        | none => (none, obj2)
      | _ => (none, obj2)
    else if key_encoder = "SpatialKey" then
      match obj.1 with
      | .spatialKey k =>
        (some { emptyProtoTuple with spatialKey := to_pb_spatial_key k, tiles := mb }, obj2)
      | _ => (none, obj2)
    else
      (none, obj2)

/-- Tags naming the six built-in decoder functions. -/
inductive DecoderFn where
  | tile
  | multibandtile
  | projectedExtent
  | temporalProjectedExtent
  | spatialKey
  | spaceTimeKey
deriving DecidableEq, Repr

/-- Tags naming the six built-in encoder functions. -/
inductive EncoderFn where
  | tile
  | multibandtile
  | projectedExtent
  | temporalProjectedExtent
  | spatialKey
  | spaceTimeKey
deriving DecidableEq, Repr

/-- `_get_decoder`: string-keyed dispatch to one of the six built-in
decoders; any other name raises (Could not find value type that
matches), modelled as `none`. -/
def get_decoder (name : String) : Option DecoderFn :=
  if name = "Tile" then some .tile
  else if name = "MultibandTile" then some .multibandtile
  else if name = "ProjectedExtent" then some .projectedExtent
  else if name = "TemporalProjectedExtent" then some .temporalProjectedExtent
  else if name = "SpatialKey" then some .spatialKey
  else if name = "SpaceTimeKey" then some .spaceTimeKey
  else none

/-- `_get_encoder`: string-keyed dispatch to one of the six built-in
encoders; any other name raises, modelled as `none`. -/
def get_encoder (name : String) : Option EncoderFn :=
  if name = "Tile" then some .tile
  else if name = "MultibandTile" then some .multibandtile
  else if name = "ProjectedExtent" then some .projectedExtent
  else if name = "TemporalProjectedExtent" then some .temporalProjectedExtent
  else if name = "SpatialKey" then some .spatialKey
  else if name = "SpaceTimeKey" then some .spaceTimeKey
  else none

theorem from_pb_tile_eq (tile : ProtoTile) (dt : DataType) :
    from_pb_tile tile dt =
      npReshape2 ((containerOf tile dt).map (narrowCell dt)) tile.rows tile.cols := by
  cases dt <;> simp only [from_pb_tile, containerOf] <;>
    first
      | rfl
      | exact congrArg (fun l => npReshape2 l tile.rows tile.cols) (List.map_id' _).symm

theorem containerOf_mkProtoTile (rows cols : Nat) (obj : TileDict) :
    containerOf (mkProtoTile rows cols obj) obj.data_type = obj.data.values := by
  cases h : obj.data_type <;> simp [mkProtoTile, containerOf, h]

theorem mkProtoTile_cellType (rows cols : Nat) (obj : TileDict) :
    (mkProtoTile rows cols obj).cellType =
      ⟨dataTypeCode obj.data_type, pyTruthy obj.no_data_value,
        if pyTruthy obj.no_data_value then obj.no_data_value.getD 0 else 0⟩ := by
  cases h : obj.data_type <;> simp [mkProtoTile, h]

theorem mkProtoTile_rows (rows cols : Nat) (obj : TileDict) :
    (mkProtoTile rows cols obj).rows = rows := by
  cases h : obj.data_type <;> simp [mkProtoTile, h]

theorem mkProtoTile_cols (rows cols : Nat) (obj : TileDict) :
    (mkProtoTile rows cols obj).cols = cols := by
  cases h : obj.data_type <;> simp [mkProtoTile, h]

theorem mapped_data_types_code (dt : DataType) :
    mapped_data_types (dataTypeCode dt) = some dt := by
  cases dt <;> rfl

theorem narrowCell_of_inRange (dt : DataType) (v : Int)
    (h : cellInRange dt v = true) : narrowCell dt v = v := by
  cases dt <;> simp [cellInRange] at h <;>
    simp [narrowCell, npInt8, npUInt8, npInt16, npUInt16, npInt32] <;> omega

theorem map_narrowCell_of_inRange (dt : DataType) (l : List Int)
    (h : ∀ v ∈ l, cellInRange dt v = true) : l.map (narrowCell dt) = l := by
  induction l with
  | nil => rfl
  | cons a as ih =>
    simp only [List.map_cons]
    rw [narrowCell_of_inRange dt a (h a (List.mem_cons_self a as)),
      ih (fun v hv => h v (List.mem_cons_of_mem a hv))]

/-- A Python list comprehension over an exception-throwing body: the
first failure aborts the whole computation. -/
theorem pyTruthy_some_of_ne {w : Int} (hw : w ≠ 0) : pyTruthy (some w) = true := by
  simp [pyTruthy, hw]

theorem mapOpt_eq_some_map (f : α → Option β) (g : α → β) :
    ∀ l : List α, (∀ a ∈ l, f a = some (g a)) → mapOpt f l = some (l.map g) := by
  intro l
  induction l with
  | nil => intro _; rfl
  | cons a as ih =>
    intro h
    simp only [mapOpt, h a (List.mem_cons_self a as),
      ih fun b hb => h b (List.mem_cons_of_mem a hb), List.map_cons]

theorem mapOpt_length (f : α → Option β) :
    ∀ (l : List α) (bs : List β), mapOpt f l = some bs → bs.length = l.length := by
  intro l
  induction l with
  | nil =>
    intro bs h
    simp only [mapOpt, Option.some.injEq] at h
    rw [← h]
    rfl
  | cons a as ih =>
    intro bs h
    simp only [mapOpt] at h
    cases hfa : f a with
    | none => rw [hfa] at h; exact absurd h (by simp)
    | some b =>
      cases hrec : mapOpt f as with
      | none => rw [hfa, hrec] at h; exact absurd h (by simp)
      | some bs2 =>
        rw [hfa, hrec] at h
        simp only [Option.some.injEq] at h
        rw [← h, List.length_cons, List.length_cons, ih bs2 hrec]

theorem flatten_chunks (k : Nat) : ∀ (n : Nat) (l : List Int),
    l.length = n * k →
    ((List.range n).map (fun i => (l.drop (i * k)).take k)).flatten = l := by
  intro n
  induction n with
  | zero =>
    intro l hl
    simp only [Nat.zero_mul] at hl
    simp [List.length_eq_zero.mp hl]
  | succ m ih =>
    intro l hl
    have hfun : ((fun i => (l.drop (i * k)).take k) ∘ Nat.succ) =
        fun i => ((l.drop k).drop (i * k)).take k := by
      funext i
      show (l.drop (Nat.succ i * k)).take k = ((l.drop k).drop (i * k)).take k
      rw [List.drop_drop, Nat.succ_mul, Nat.add_comm (i * k) k]
    rw [List.range_succ_eq_map, List.map_cons, List.map_map, List.flatten_cons, hfun,
      ih (l.drop k) (by rw [List.length_drop, hl, Nat.succ_mul]; omega)]
    simp

theorem chunk_length {l : List Int} {n k i : Nat} (hl : l.length = n * k) (hi : i < n) :
    ((l.drop (i * k)).take k).length = k := by
  rw [List.length_take, List.length_drop, hl]
  have h1 : i * k + k ≤ n * k := by
    calc i * k + k = (i + 1) * k := (Nat.succ_mul i k).symm
    _ ≤ n * k := Nat.mul_le_mul_right k hi
  omega

theorem chunk_mem {l : List Int} {a b : Nat} : ∀ v ∈ (l.drop a).take b, v ∈ l :=
  fun _ hv => List.mem_of_mem_drop (List.mem_of_mem_take hv)

theorem from_pb_mkProtoTile (rows cols : Nat) (d : TileDict)
    (hlen : d.data.values.length = rows * cols)
    (hrange : ∀ v ∈ d.data.values, cellInRange d.data_type v = true) :
    from_pb_tile (mkProtoTile rows cols d) d.data_type =
      some ⟨[rows, cols], d.data.values⟩ := by
  rw [from_pb_tile_eq, containerOf_mkProtoTile, mkProtoTile_rows, mkProtoTile_cols,
    map_narrowCell_of_inRange d.data_type _ hrange]
  simp [npReshape2, hlen]

theorem mapOpt_map (f : β → Option γ) (g : α → β) (l : List α) :
    mapOpt f (l.map g) = mapOpt (fun a => f (g a)) l := by
  induction l with
  | nil => rfl
  | cons a as ih => simp only [List.map_cons, mapOpt, ih]

theorem npStack_map_range (k r c : Nat) (ch : Nat → List Int) :
    npStack ((List.range (k + 1)).map fun i => (⟨[r, c], ch i⟩ : NpArray)) =
      some ⟨[k + 1, r, c], ((List.range (k + 1)).map ch).flatten⟩ := by
  rw [List.range_succ_eq_map, List.map_cons]
  simp only [npStack]
  rw [if_pos (by
    intro b hb
    simp only [List.map_map, List.mem_map] at hb
    obtain ⟨i, -, rfl⟩ := hb
    rfl)]
  simp [List.map_map, Function.comp]
  rfl

theorem to_pb_multibandtile_bands (vals : List Int) (n r c : Nat) (dt : DataType)
    (w : Int) :
    to_pb_multibandtile ⟨⟨[n, r, c], vals⟩, dt, some w⟩ =
      (some ⟨(List.range n).map fun i =>
          mkProtoTile r c ⟨⟨[r, c], (vals.drop (i * (r * c))).take (r * c)⟩, dt, some w⟩⟩,
        ⟨⟨[n, r, c], vals⟩, dt, some w⟩) := by
  show encode_bands ⟨⟨[n, r, c], vals⟩, dt, some w⟩ [n, r, c] = _
  simp only [encode_bands]
  rw [if_neg (by simp),
    mapOpt_eq_some_map _ (fun i =>
      mkProtoTile r c ⟨⟨[r, c], (vals.drop (i * (r * c))).take (r * c)⟩, dt, some w⟩) _
      (by
        intro i _
        simp [create_dict, bandSlice, to_pb_tile])]

theorem from_pb_multibandtile_bands (vals : List Int) (k r c : Nat) (dt : DataType)
    (w : Int) (hw0 : w ≠ 0)
    (hlen : vals.length = (k + 1) * (r * c))
    (hrange : ∀ v ∈ vals, cellInRange dt v = true) :
    from_pb_multibandtile ⟨(List.range (k + 1)).map fun i =>
        mkProtoTile r c ⟨⟨[r, c], (vals.drop (i * (r * c))).take (r * c)⟩, dt, some w⟩⟩ =
      some ⟨⟨[k + 1, r, c], vals⟩, dt, some w⟩ := by
  set f : Nat → ProtoTile := fun i =>
    mkProtoTile r c ⟨⟨[r, c], (vals.drop (i * (r * c))).take (r * c)⟩, dt, some w⟩ with hf
  have hlist : (List.range (k + 1)).map f = f 0 :: ((List.range k).map fun i => f (i + 1)) := by
    rw [List.range_succ_eq_map, List.map_cons, List.map_map]
    rfl
  have hct : (f 0).cellType = ⟨dataTypeCode dt, true, w⟩ := by
    rw [hf]
    rw [mkProtoTile_cellType]
    simp [pyTruthy_some_of_ne hw0]
  show decode_bands ((List.range (k + 1)).map f) = _
  rw [hlist]
  simp only [decode_bands]
  rw [← hlist]
  simp only [hct, mapped_data_types_code, mapOpt_map]
  rw [mapOpt_eq_some_map _
    (fun i => (⟨[r, c], (vals.drop (i * (r * c))).take (r * c)⟩ : NpArray)) _
    (by
      intro i hi
      exact from_pb_mkProtoTile r c _ (chunk_length hlen (List.mem_range.mp hi))
        (fun v hv => hrange v (chunk_mem v hv)))]
  have hstack := npStack_map_range k r c (fun i => (vals.drop (i * (r * c))).take (r * c))
  rw [flatten_chunks (r * c) (k + 1) vals hlen] at hstack
  show (match npStack ((List.range (k + 1)).map fun i =>
      (⟨[r, c], (vals.drop (i * (r * c))).take (r * c)⟩ : NpArray)) with
    | none => (none : Option TileDict)
    | some bands => some ⟨bands, dt, some w⟩) =
    some ⟨⟨[k + 1, r, c], vals⟩, dt, some w⟩
  rw [hstack]

/-- C1 (counterexample): the claim fails as stated.  The BYTE tile from
the specification example with the representable no-data sentinel 0
does not round-trip: the encoder decides no-data presence by
truthiness, so the sentinel is dropped and the decoded record lacks the
no_data_value key. -/
theorem tile_roundtrip_noData_zero_counterexample :
    (to_pb_tile ⟨⟨[1, 2, 2], [0, 0, 1, 1]⟩, .byte, some 0⟩).bind tile_decoder ≠
      some ⟨⟨[1, 2, 2], [0, 0, 1, 1]⟩, .byte, some 0⟩ := by
  decide

/-- C1 (amended): for every single-band Tile record whose data array
has shape 1 × rows × cols, whose cells are within the range of the cell
type, and whose no_data_value, when present, is nonzero,
tile_decoder (tile_encoder t) returns a record equal to t: cell values,
dimensions, cell type, and no-data presence and value are preserved. -/
theorem tile_roundtrip_amended (t : TileDict) (r c : Nat)
    (hshape : t.data.shape = [1, r, c])
    (hlen : t.data.values.length = r * c)
    (hrange : ∀ v ∈ t.data.values, cellInRange t.data_type v = true)
    (hnd : t.no_data_value ≠ some 0) :
    (to_pb_tile t).bind tile_decoder = some t := by
  obtain ⟨⟨sh, vals⟩, dt, ndv⟩ := t
  have hsh : sh = [1, r, c] := hshape
  subst hsh
  have hlen2 : vals.length = r * c := hlen
  have hrange2 : ∀ v ∈ vals, cellInRange dt v = true := hrange
  show tile_decoder (mkProtoTile r c ⟨⟨[1, r, c], vals⟩, dt, ndv⟩) = _
  simp only [tile_decoder, mkProtoTile_cellType, mapped_data_types_code,
    from_pb_mkProtoTile r c ⟨⟨[1, r, c], vals⟩, dt, ndv⟩ hlen2 hrange2, npExpandDims]
  cases ndv with
  | none => simp [pyTruthy]
  | some v =>
    have hv : v ≠ 0 := fun h0 => hnd (by rw [h0])
    simp [pyTruthy_some_of_ne hv]

/-- C1 (witness): the amended round-trip at the 2 × 2 BYTE tile of the
specification example, sentinel -128. -/
theorem tile_roundtrip_amended_witness :
    (to_pb_tile ⟨⟨[1, 2, 2], [0, 0, 1, 1]⟩, .byte, some (-128)⟩).bind tile_decoder =
      some ⟨⟨[1, 2, 2], [0, 0, 1, 1]⟩, .byte, some (-128)⟩ :=
  tile_roundtrip_amended ⟨⟨[1, 2, 2], [0, 0, 1, 1]⟩, .byte, some (-128)⟩ 2 2 rfl rfl
    (by decide) (by decide)

/-- C2: evaluation at the failing input.  Encoding a SpaceTimeKey tuple
always fails, because the SpaceTimeKey branch of `tuple_encoder`
assigns the sub-message directly to the composite protobuf field
instead of using CopyFrom, which the protobuf runtime rejects with
AttributeError; the three other key kinds succeed on analogous inputs,
so the failure is specific to the key slot, not the value. -/
theorem tuple_encoder_spaceTimeKey_fails :
    (tuple_encoder (.spaceTimeKey ⟨1, 2, 3⟩, ⟨⟨[1, 1, 1], [7]⟩, .int, some (-1)⟩)
        "SpaceTimeKey").1 = none
    ∧ ((tuple_encoder (.spatialKey ⟨1, 2⟩, ⟨⟨[1, 1, 1], [7]⟩, .int, some (-1)⟩)
        "SpatialKey").1).isSome = true
    ∧ ((tuple_encoder (.projectedExtent ⟨⟨0, 0, 1, 1⟩, some 4326, none⟩,
        ⟨⟨[1, 1, 1], [7]⟩, .int, some (-1)⟩) "ProjectedExtent").1).isSome = true
    ∧ ((tuple_encoder (.temporalProjectedExtent ⟨⟨0, 0, 1, 1⟩, 10, some 4326, none⟩,
        ⟨⟨[1, 1, 1], [7]⟩, .int, some (-1)⟩) "TemporalProjectedExtent").1).isSome = true := by
  decide

/-- C3 (counterexample): the claim fails as stated.  A single-band
multiband record without the no_data_value key is a valid MultibandTile
value and is exactly what multiband decode produces for a tile with no
no-data flag, yet re-encoding it raises KeyError, so
decode (encode m) = m fails. -/
theorem multiband_roundtrip_missing_noData_counterexample :
    ((to_pb_multibandtile ⟨⟨[1, 1, 1], [7]⟩, .int, none⟩).1).bind multibandtile_decoder ≠
      some ⟨⟨[1, 1, 1], [7]⟩, .int, none⟩ := by
  decide

/-- C3 (amended): for every multiband record whose data array has shape
n × rows × cols with n ≥ 1, whose cells are within the range of the
cell type, and which carries a nonzero no_data_value, decode of encode
returns a record equal to the input, with every band in its original
position. -/
theorem multiband_roundtrip_amended (m : TileDict) (n r c : Nat) (w : Int)
    (hshape : m.data.shape = [n, r, c]) (hn : n ≠ 0)
    (hlen : m.data.values.length = n * (r * c))
    (hrange : ∀ v ∈ m.data.values, cellInRange m.data_type v = true)
    (hw : m.no_data_value = some w) (hw0 : w ≠ 0) :
    ((to_pb_multibandtile m).1).bind multibandtile_decoder = some m := by
  obtain ⟨⟨sh, vals⟩, dt, ndv⟩ := m
  have hsh : sh = [n, r, c] := hshape
  subst hsh
  have hndv : ndv = some w := hw
  subst hndv
  have hlen2 : vals.length = n * (r * c) := hlen
  have hrange2 : ∀ v ∈ vals, cellInRange dt v = true := hrange
  obtain ⟨k, rfl⟩ : ∃ k, n = k + 1 := ⟨n - 1, by omega⟩
  rw [to_pb_multibandtile_bands]
  show from_pb_multibandtile _ = _
  exact from_pb_multibandtile_bands vals k r c dt w hw0 hlen2 hrange2

/-- C3 (witness): the amended round-trip at the 3-band 2 × 2 BYTE tile
of the specification example, sentinel -128. -/
theorem multiband_roundtrip_amended_witness :
    ((to_pb_multibandtile
        ⟨⟨[3, 2, 2], [0, 0, 1, 1, 0, 0, 1, 1, 0, 0, 1, 1]⟩, .byte, some (-128)⟩).1).bind
        multibandtile_decoder =
      some ⟨⟨[3, 2, 2], [0, 0, 1, 1, 0, 0, 1, 1, 0, 0, 1, 1]⟩, .byte, some (-128)⟩ :=
  multiband_roundtrip_amended
    ⟨⟨[3, 2, 2], [0, 0, 1, 1, 0, 0, 1, 1, 0, 0, 1, 1]⟩, .byte, some (-128)⟩ 3 2 2 (-128)
    rfl (by decide) rfl (by decide) rfl (by decide)

/-- C4: decode interprets the CRS as an EPSG code exactly when the epsg
field is nonzero and otherwise takes the proj4 field as authoritative,
for both the plain and the temporal projected extent; encoding with
epsg 4326 then decoding yields epsg 4326 and no proj4, and encoding
with only a proj4 string yields a decode with proj4 populated and no
epsg. -/
theorem crs_dispatch :
    (∀ pb : ProtoProjectedExtent, pb.crs.epsg ≠ 0 →
      from_pb_projected_extent pb = ⟨from_pb_extent pb.extent, some pb.crs.epsg, none⟩)
    ∧ (∀ pb : ProtoProjectedExtent, pb.crs.epsg = 0 →
      from_pb_projected_extent pb = ⟨from_pb_extent pb.extent, none, some pb.crs.proj4⟩)
    ∧ (∀ pb : ProtoTemporalProjectedExtent, pb.crs.epsg ≠ 0 →
      from_pb_temporal_projected_extent pb =
        ⟨from_pb_extent pb.extent, pb.instant, some pb.crs.epsg, none⟩)
    ∧ (∀ pb : ProtoTemporalProjectedExtent, pb.crs.epsg = 0 →
      from_pb_temporal_projected_extent pb =
        ⟨from_pb_extent pb.extent, pb.instant, none, some pb.crs.proj4⟩)
    ∧ (∀ e : Extent,
      (to_pb_projected_extent ⟨e, some 4326, none⟩).map from_pb_projected_extent =
        some ⟨e, some 4326, none⟩)
    ∧ (∀ (e : Extent) (s : String),
      (to_pb_projected_extent ⟨e, none, some s⟩).map from_pb_projected_extent =
        some ⟨e, none, some s⟩)
    ∧ (∀ (e : Extent) (i : Int),
      (to_pb_temporal_projected_extent ⟨e, i, some 4326, none⟩).map
          from_pb_temporal_projected_extent =
        some ⟨e, i, some 4326, none⟩)
    ∧ (∀ (e : Extent) (i : Int) (s : String),
      (to_pb_temporal_projected_extent ⟨e, i, none, some s⟩).map
          from_pb_temporal_projected_extent =
        some ⟨e, i, none, some s⟩) := by
  refine ⟨?_, ?_, ?_, ?_, ?_, ?_, ?_, ?_⟩
  · intro pb h; simp [from_pb_projected_extent, h]
  · intro pb h; simp [from_pb_projected_extent, h]
  · intro pb h; simp [from_pb_temporal_projected_extent, h]
  · intro pb h; simp [from_pb_temporal_projected_extent, h]
  · intro e
    simp [to_pb_projected_extent, pyTruthy, from_pb_projected_extent, from_pb_extent,
      to_pb_extent]
  · intro e s
    simp [to_pb_projected_extent, pyTruthy, from_pb_projected_extent, from_pb_extent,
      to_pb_extent]
  · intro e i
    simp [to_pb_temporal_projected_extent, pyTruthy, from_pb_temporal_projected_extent,
      from_pb_extent, to_pb_extent]
  · intro e i s
    simp [to_pb_temporal_projected_extent, pyTruthy, from_pb_temporal_projected_extent,
      from_pb_extent, to_pb_extent]

/-- C4 (witness): the dispatch at concrete wire messages and the two
concrete encode-decode chains. -/
theorem crs_dispatch_witness :
    from_pb_projected_extent ⟨⟨0, 0, 2, 2⟩, ⟨3857, ""⟩⟩ = ⟨⟨0, 0, 2, 2⟩, some 3857, none⟩
    ∧ from_pb_projected_extent ⟨⟨0, 0, 2, 2⟩, ⟨0, "+proj=longlat"⟩⟩ =
        ⟨⟨0, 0, 2, 2⟩, none, some "+proj=longlat"⟩
    ∧ (to_pb_projected_extent ⟨⟨0, 0, 2, 2⟩, some 4326, none⟩).map
        from_pb_projected_extent = some ⟨⟨0, 0, 2, 2⟩, some 4326, none⟩
    ∧ (to_pb_projected_extent ⟨⟨0, 0, 2, 2⟩, none, some "+proj=longlat"⟩).map
        from_pb_projected_extent = some ⟨⟨0, 0, 2, 2⟩, none, some "+proj=longlat"⟩ :=
  ⟨crs_dispatch.1 ⟨⟨0, 0, 2, 2⟩, ⟨3857, ""⟩⟩ (by decide),
    crs_dispatch.2.1 ⟨⟨0, 0, 2, 2⟩, ⟨0, "+proj=longlat"⟩⟩ rfl,
    crs_dispatch.2.2.2.2.1 ⟨0, 0, 2, 2⟩,
    crs_dispatch.2.2.2.2.2.1 ⟨0, 0, 2, 2⟩ "+proj=longlat"⟩

/-- C5: a tile wire message whose declared rows times cols differs from
the number of values stored in the container selected by its cell type
fails to decode (the reshape raises), and a successful decode always
carries exactly rows times cols cells in a 1 × rows × cols array, never
a truncated or padded one. -/
theorem tile_decode_malformed :
    (∀ (tile : ProtoTile) (dt : DataType),
      mapped_data_types tile.cellType.dataType = some dt →
      (containerOf tile dt).length ≠ tile.rows * tile.cols →
      tile_decoder tile = none)
    ∧ (∀ (tile : ProtoTile) (d : TileDict), tile_decoder tile = some d →
      d.data.values.length = tile.rows * tile.cols
      ∧ d.data.shape = [1, tile.rows, tile.cols]) := by
  constructor
  · intro tile dt hdt hne
    simp only [tile_decoder, hdt, from_pb_tile_eq]
    simp [npReshape2, hne]
  · intro tile d h
    simp only [tile_decoder] at h
    split at h
    · exact absurd h (by simp)
    · rename_i dt hdt
      split at h
      · exact absurd h (by simp)
      · rename_i a harr
        rw [from_pb_tile_eq] at harr
        simp only [npReshape2] at harr
        by_cases hc :
            ((containerOf tile dt).map (narrowCell dt)).length = tile.rows * tile.cols
        · rw [if_pos hc] at harr
          injection harr with h2
          have hd : d.data = npExpandDims a := by
            cases hnd : tile.cellType.hasNoData <;> rw [hnd] at h <;>
              (injection h with h3; rw [← h3])
          rw [hd, ← h2, npExpandDims]
          exact ⟨hc, rfl⟩
        · rw [if_neg hc] at harr
          exact absurd harr (by simp)

/-- C5 (witness): a BYTE message declaring 2 × 2 cells but storing only
three values fails to decode. -/
theorem tile_decode_malformed_witness :
    tile_decoder ⟨2, 2, ⟨1, false, 0⟩, [], [1, 2, 3], [], []⟩ = none :=
  tile_decode_malformed.1 ⟨2, 2, ⟨1, false, 0⟩, [], [1, 2, 3], [], []⟩ .byte rfl (by decide)

/-- C6: each of the six built-in schema names resolves to its matching
decoder and encoder; every other name fails in both dispatch
functions. -/
theorem schema_dispatch :
    (∀ name : String, name ≠ "Tile" → name ≠ "MultibandTile" →
      name ≠ "ProjectedExtent" → name ≠ "TemporalProjectedExtent" →
      name ≠ "SpatialKey" → name ≠ "SpaceTimeKey" →
      get_decoder name = none ∧ get_encoder name = none)
    ∧ get_decoder "Tile" = some .tile
    ∧ get_decoder "MultibandTile" = some .multibandtile
    ∧ get_decoder "ProjectedExtent" = some .projectedExtent
    ∧ get_decoder "TemporalProjectedExtent" = some .temporalProjectedExtent
    ∧ get_decoder "SpatialKey" = some .spatialKey
    ∧ get_decoder "SpaceTimeKey" = some .spaceTimeKey
    ∧ get_encoder "Tile" = some .tile
    ∧ get_encoder "MultibandTile" = some .multibandtile
    ∧ get_encoder "ProjectedExtent" = some .projectedExtent
    ∧ get_encoder "TemporalProjectedExtent" = some .temporalProjectedExtent
    ∧ get_encoder "SpatialKey" = some .spatialKey
    ∧ get_encoder "SpaceTimeKey" = some .spaceTimeKey := by
  refine ⟨?_, rfl, rfl, rfl, rfl, rfl, rfl, rfl, rfl, rfl, rfl, rfl, rfl⟩
  intro name h1 h2 h3 h4 h5 h6
  constructor <;> simp [get_decoder, get_encoder, h1, h2, h3, h4, h5, h6]

/-- C6 (witness): the dispatch miss at the name of the specification
example. -/
theorem schema_dispatch_witness :
    get_decoder "NotARealType" = none ∧ get_encoder "NotARealType" = none :=
  schema_dispatch.1 "NotARealType" (by decide) (by decide) (by decide) (by decide)
    (by decide) (by decide)

theorem decode_bands_inv (t0 : ProtoTile) (rest : List ProtoTile) (d : TileDict)
    (h : decode_bands (t0 :: rest) = some d) :
    mapped_data_types t0.cellType.dataType = some d.data_type
    ∧ d.no_data_value = (if t0.cellType.hasNoData then some t0.cellType.nd else none)
    ∧ ∃ arrs : List NpArray,
        mapOpt (fun t => from_pb_tile t d.data_type) (t0 :: rest) = some arrs
        ∧ npStack arrs = some d.data := by
  simp only [decode_bands] at h
  split at h
  · exact absurd h (by simp)
  · rename_i dt hdt
    split at h
    · exact absurd h (by simp)
    · rename_i arrs hmo
      split at h
      · exact absurd h (by simp)
      · rename_i bands hst
        cases hnd : t0.cellType.hasNoData <;> rw [hnd] at h <;>
          injection h with h2 <;> rw [← h2] <;> simp <;>
          exact ⟨hdt, arrs, hmo, hst⟩

/-- C7: multiband decode takes the cell type and the no-data
information exclusively from band 0 and decodes every band, including
later ones whose headers disagree, with the band-0 cell type; nothing
is re-validated against subsequent bands. -/
theorem multiband_decode_band0 (mb : ProtoMultibandTile) (d : TileDict) (t0 : ProtoTile)
    (rest : List ProtoTile) (htiles : mb.tiles = t0 :: rest)
    (h : from_pb_multibandtile mb = some d) :
    mapped_data_types t0.cellType.dataType = some d.data_type
    ∧ d.no_data_value = (if t0.cellType.hasNoData then some t0.cellType.nd else none)
    ∧ ∃ arrs : List NpArray,
        mapOpt (fun t => from_pb_tile t d.data_type) (t0 :: rest) = some arrs
        ∧ npStack arrs = some d.data := by
  rw [from_pb_multibandtile, htiles] at h
  exact decode_bands_inv t0 rest d h

/-- C7 (witness): a two-band message whose second band declares the
FLOAT cell type and no no-data flag still decodes, with the second
band read through the band-0 BYTE container and the shared header taken
from band 0. -/
theorem multiband_decode_band0_witness :
    from_pb_multibandtile ⟨[⟨2, 1, ⟨1, true, -128⟩, [], [1, 2], [], []⟩,
        ⟨2, 1, ⟨6, false, 0⟩, [], [3, 4], [], []⟩]⟩ =
      some ⟨⟨[2, 1, 2], [1, 2, 3, 4]⟩, .byte, some (-128)⟩
    ∧ (⟨⟨[2, 1, 2], [1, 2, 3, 4]⟩, .byte, some (-128)⟩ : TileDict).no_data_value =
        (if (⟨1, true, -128⟩ : ProtoCellType).hasNoData
         then some (⟨1, true, -128⟩ : ProtoCellType).nd else none) := by
  refine ⟨by decide, ?_⟩
  exact (multiband_decode_band0 ⟨[⟨2, 1, ⟨1, true, -128⟩, [], [1, 2], [], []⟩,
    ⟨2, 1, ⟨6, false, 0⟩, [], [3, 4], [], []⟩]⟩ ⟨⟨[2, 1, 2], [1, 2, 3, 4]⟩, .byte, some (-128)⟩
    ⟨2, 1, ⟨1, true, -128⟩, [], [1, 2], [], []⟩ [⟨2, 1, ⟨6, false, 0⟩, [], [3, 4], [], []⟩]
    rfl (by decide)).2.1

theorem encode_bands_snd (obj2 : TileDict) : ∀ sh : List Nat, (encode_bands obj2 sh).2 = obj2 := by
  intro sh
  cases sh with
  | nil => rfl
  | cons n tail =>
    simp only [encode_bands]
    by_cases hc : n ≠ 0 ∧ obj2.no_data_value = none
    · rw [if_pos hc]
    · rw [if_neg hc]
      cases hm : mapOpt (fun i => to_pb_tile (create_dict obj2 i)) (List.range n) with
      | none => rfl
      | some tiles => rfl

theorem to_pb_multibandtile_snd (obj : TileDict) :
    (to_pb_multibandtile obj).2 =
      (if obj.data.shape.length = 2 then { obj with data := npExpandDims obj.data } else obj) := by
  simp only [to_pb_multibandtile]
  exact encode_bands_snd _ _

theorem tuple_encoder_snd (obj : TupleKey × TileDict) (s : String) :
    (tuple_encoder obj s).2 = (to_pb_multibandtile obj.2).2 := by
  simp only [tuple_encoder]
  rcases hm : to_pb_multibandtile obj.2 with ⟨mbOpt, obj2⟩
  cases mbOpt with
  | none => rfl
  | some mb =>
    simp only []
    repeat' split
    all_goals rfl

/-- C8 (counterexample): the claim fails as stated.  Encoding a
multiband record whose data array is 2-dimensional mutates the record
in place: the data key is reassigned to the 1 × rows × cols expansion
before the bands are read. -/
theorem multiband_encoder_mutates_counterexample :
    (to_pb_multibandtile ⟨⟨[2, 2], [1, 2, 3, 4]⟩, .int, some (-1)⟩).2 ≠
      ⟨⟨[2, 2], [1, 2, 3, 4]⟩, .int, some (-1)⟩ := by
  decide

/-- C8 (amended): the decoders and the tile, extent, and key encoders
are pure value transformations, and the multiband encoder (and through
it the tuple encoder) leaves its input record unchanged whenever the
data array is 3-dimensional; only a 2-dimensional data array is
replaced in place by its 1 × rows × cols expansion. -/
theorem encoders_pure_amended (obj : TileDict) (h3 : obj.data.shape.length = 3) :
    (to_pb_multibandtile obj).2 = obj
    ∧ ∀ (k : TupleKey) (s : String), (tuple_encoder (k, obj) s).2 = obj := by
  have hsnd : (to_pb_multibandtile obj).2 = obj := by
    rw [to_pb_multibandtile_snd, if_neg (by omega)]
  exact ⟨hsnd, fun k s => by rw [tuple_encoder_snd (k, obj) s]; exact hsnd⟩

/-- C8 (witness): the amended purity at a concrete 3-dimensional record
for both the multiband and the tuple encoder. -/
theorem encoders_pure_amended_witness :
    (to_pb_multibandtile ⟨⟨[1, 2, 2], [1, 2, 3, 4]⟩, .int, some (-1)⟩).2 =
      ⟨⟨[1, 2, 2], [1, 2, 3, 4]⟩, .int, some (-1)⟩
    ∧ (tuple_encoder (.spatialKey ⟨0, 0⟩, ⟨⟨[1, 2, 2], [1, 2, 3, 4]⟩, .int, some (-1)⟩)
        "SpatialKey").2 = ⟨⟨[1, 2, 2], [1, 2, 3, 4]⟩, .int, some (-1)⟩ := by
  have h := encoders_pure_amended ⟨⟨[1, 2, 2], [1, 2, 3, 4]⟩, .int, some (-1)⟩ (by decide)
  exact ⟨h.1, h.2 (.spatialKey ⟨0, 0⟩) "SpatialKey"⟩

/-- C9: the encoded no-data flag is decided by Python truthiness of the
optional no_data_value, not by presence of the key: a present value of
0 encodes with the flag unset, and the decode of such a message carries
no no-data sentinel. -/
theorem noData_truthiness (obj : TileDict) (pt : ProtoTile) (h : to_pb_tile obj = some pt) :
    pt.cellType.hasNoData = pyTruthy obj.no_data_value
    ∧ (obj.no_data_value = some 0 → ∀ d : TileDict, tile_decoder pt = some d →
        d.no_data_value = none) := by
  obtain ⟨r, c, rfl⟩ : ∃ r c, pt = mkProtoTile r c obj := by
    simp only [to_pb_tile] at h
    split at h
    · rename_i rows cols hsh
      injection h with h2
      exact ⟨rows, cols, h2.symm⟩
    · rename_i x rows cols hsh
      injection h with h2
      exact ⟨rows, cols, h2.symm⟩
    · exact absurd h (by simp)
  refine ⟨by rw [mkProtoTile_cellType], ?_⟩
  intro h0 d hd
  simp only [tile_decoder, mkProtoTile_cellType, mapped_data_types_code, h0, pyTruthy] at hd
  simp only [bne_self_eq_false, Bool.false_eq_true, if_false] at hd
  split at hd
  · exact absurd hd (by simp)
  · injection hd with h2
    rw [← h2]

/-- C9 (witness): truthiness at a concrete INT tile with present
no_data_value 0: the encoded flag is down and the decoded record lacks
the sentinel. -/
theorem noData_truthiness_witness :
    (⟨1, 1, ⟨5, false, 0⟩, [], [5], [], []⟩ : ProtoTile).cellType.hasNoData =
      pyTruthy (some 0)
    ∧ (⟨⟨[1, 1, 1], [5]⟩, .int, none⟩ : TileDict).no_data_value = none := by
  have h := noData_truthiness ⟨⟨[1, 1, 1], [5]⟩, .int, some 0⟩
    ⟨1, 1, ⟨5, false, 0⟩, [], [5], [], []⟩ (by decide)
  exact ⟨h.1, h.2 rfl ⟨⟨[1, 1, 1], [5]⟩, .int, none⟩ (by decide)⟩

theorem npStack_cons_shape (a : NpArray) (arest : List NpArray) (b : NpArray)
    (h : npStack (a :: arest) = some b) : b.shape = (a :: arest).length :: a.shape := by
  simp only [npStack] at h
  by_cases hc : ∀ x ∈ arest, x.shape = a.shape
  · rw [if_pos hc] at h
    injection h with h2
    rw [← h2]
  · rw [if_neg hc] at h
    exact absurd h (by simp)

theorem encode_fails_of_noData_none (obj : TileDict) (hnone : obj.no_data_value = none)
    (hne : obj.data.shape ≠ [])
    (hd : obj.data.shape.length = 2 ∨ obj.data.shape.headI ≠ 0) :
    (to_pb_multibandtile obj).1 = none := by
  by_cases h2 : obj.data.shape.length = 2
  · simp only [to_pb_multibandtile, if_pos h2, npExpandDims]
    simp only [encode_bands]
    rw [if_pos ⟨Nat.one_ne_zero, by simpa using hnone⟩]
  · obtain ⟨n, rest, hsh⟩ : ∃ n rest, obj.data.shape = n :: rest := by
      cases hx : obj.data.shape with
      | nil => exact absurd hx hne
      | cons a b => exact ⟨a, b, rfl⟩
    have hn0 : n ≠ 0 := by
      rcases hd with h | h
      · exact absurd h h2
      · rw [hsh] at h
        simpa using h
    simp only [to_pb_multibandtile]
    rw [if_neg h2, hsh]
    simp only [encode_bands]
    rw [if_pos ⟨hn0, hnone⟩]

theorem from_pb_multibandtile_shape (mb : ProtoMultibandTile) (d : TileDict)
    (h : from_pb_multibandtile mb = some d) :
    d.data.shape ≠ [] ∧ d.data.shape.headI ≠ 0 := by
  cases htl : mb.tiles with
  | nil =>
    rw [from_pb_multibandtile, htl] at h
    exact absurd h (by simp [decode_bands])
  | cons t0 rest =>
    rw [from_pb_multibandtile, htl] at h
    obtain ⟨-, -, arrs, hmo, hst⟩ := decode_bands_inv t0 rest d h
    have hlen : arrs.length = rest.length + 1 := by
      simpa using mapOpt_length _ _ _ hmo
    cases harrs : arrs with
    | nil => rw [harrs] at hlen; simp at hlen
    | cons a arest =>
      rw [harrs] at hst
      rw [npStack_cons_shape a arest d.data hst]
      exact ⟨by simp, by simp⟩

/-- C10: the multiband encoder requires the no_data_value key: a record
lacking it fails (KeyError) whenever at least one band would be
encoded, although the single-band tile encoder accepts the same record;
in particular a record produced by multiband decode of a message with
no no-data flag cannot be re-encoded by the multiband encoder. -/
theorem multiband_encoder_requires_noData :
    (∀ obj : TileDict, obj.no_data_value = none → obj.data.shape ≠ [] →
      (obj.data.shape.length = 2 ∨ obj.data.shape.headI ≠ 0) →
      (to_pb_multibandtile obj).1 = none)
    ∧ (∀ (obj : TileDict) (r c : Nat), obj.no_data_value = none →
      (obj.data.shape = [r, c] ∨ ∃ n, obj.data.shape = [n, r, c]) →
      ∃ pt : ProtoTile, to_pb_tile obj = some pt ∧ pt.cellType.hasNoData = false)
    ∧ (∀ (mb : ProtoMultibandTile) (d : TileDict), from_pb_multibandtile mb = some d →
      d.no_data_value = none → (to_pb_multibandtile d).1 = none) := by
  refine ⟨fun obj h1 h2 h3 => encode_fails_of_noData_none obj h1 h2 h3, ?_, ?_⟩
  · intro obj r c hnone hsh
    rcases hsh with hsh | ⟨n, hsh⟩
    · exact ⟨mkProtoTile r c obj, by simp only [to_pb_tile, hsh],
        by simp [mkProtoTile_cellType, hnone, pyTruthy]⟩
    · exact ⟨mkProtoTile r c obj, by simp only [to_pb_tile, hsh],
        by simp [mkProtoTile_cellType, hnone, pyTruthy]⟩
  · intro mb d hdec hnone
    obtain ⟨hne, hhead⟩ := from_pb_multibandtile_shape mb d hdec
    exact encode_fails_of_noData_none d hnone hne (Or.inr hhead)

/-- C10 (witness): a 3-dimensional INT record without the no_data_value
key fails the multiband encoder but passes the tile encoder with the
no-data flag unset. -/
theorem multiband_encoder_requires_noData_witness :
    (to_pb_multibandtile ⟨⟨[1, 2, 2], [1, 2, 3, 4]⟩, .int, none⟩).1 = none
    ∧ ∃ pt : ProtoTile, to_pb_tile ⟨⟨[1, 2, 2], [1, 2, 3, 4]⟩, .int, none⟩ = some pt
        ∧ pt.cellType.hasNoData = false :=
  ⟨multiband_encoder_requires_noData.1 ⟨⟨[1, 2, 2], [1, 2, 3, 4]⟩, .int, none⟩ rfl
      (by decide) (by decide),
    multiband_encoder_requires_noData.2.1 ⟨⟨[1, 2, 2], [1, 2, 3, 4]⟩, .int, none⟩ 2 2 rfl
      (Or.inr ⟨1, rfl⟩)⟩

end GeoPySpark
